import Mathlib

/-!
Verification of the PEA monthly-investment simulator (`src/main.py`).

The numeric state of the Python program (floats) is embedded as rationals ℚ,
so every arithmetic step of the source is mirrored exactly.  The engine
`simulate_pea` (source lines 17-81) is translated compositionally: the
initial-deposit block becomes `initState`, one iteration of the monthly loop
becomes `stepMonth`, the loop itself becomes the recursion `stateAt`, and the
history list collects the capital after each state, exactly as the source
appends it.  The comparator `calcul_scenarios` (lines 94-159) is translated
keeping its arity check, its error message and the per-scenario numeric
fields; the purely textual report assembly and the float formatting of the
dict values are presentation and are kept as the underlying numbers.
-/

namespace PEA

/-- The floating tolerance `1e-9` used by the source for cap-reached tests. -/
def tol : ℚ := 1 / 1000000000

/-- Python `int(q)`: truncation toward zero (source line 32 applies it to
`duree_annees * 12`). -/
def pyInt (q : ℚ) : ℤ := if 0 ≤ q then ⌊q⌋ else ⌈q⌉

/-- The parameters of `simulate_pea` (source lines 17-26), in source order. -/
structure SimParams where
  duree_annees : ℚ
  taux_annuel_percent : ℚ
  capital_initial : ℚ
  versement_mensuel : ℚ
  plafond_pea : ℚ
  frais_annuels_percent : ℚ
  taux_impot_percent : ℚ
  inflation_percent : ℚ
deriving DecidableEq, Repr

/-- The mutable locals of the simulation loop (source lines 38-41). -/
structure SimState where
  capital : ℚ
  net_investi : ℚ
  leftover : ℚ
  mois_plafond : Option ℕ
deriving DecidableEq, Repr

/-- The result record returned by `simulate_pea` (source lines 10-15). -/
structure SimulationResult where
  capital_final_brut : ℚ
  net_investi : ℚ
  mois_plafond : Option ℕ
  historique : List ℚ
deriving DecidableEq, Repr

/-- Effective monthly rate after inflation correction (source line 34). -/
def r_m (p : SimParams) : ℚ :=
  ((p.taux_annuel_percent - p.inflation_percent) / 100) / 12

/-- Monthly fee fraction (source line 36). -/
def frais_mensuel (p : SimParams) : ℚ := (p.frais_annuels_percent / 100) / 12

/-- `nb_mois = int(duree_annees * 12)` (source line 32). -/
def nb_mois (p : SimParams) : ℤ := pyInt (p.duree_annees * 12)

/-- Number of iterations of `for mois in range(1, nb_mois + 1)` (line 55):
the range is empty when `nb_mois ≤ 0`. -/
def nbIter (p : SimParams) : ℕ := (nb_mois p).toNat

/-- State after the initial-deposit block (source lines 38-51): starting from
capital = 0, net_investi = 0, leftover = plafond, mois_plafond = None, the
deposit happens only under `if leftover > 0`. -/
def initState (p : SimParams) : SimState :=
  if 0 < p.plafond_pea then
    let deposit_init := min p.capital_initial p.plafond_pea
    let leftover := p.plafond_pea - deposit_init
    ⟨deposit_init, deposit_init, leftover,
      if leftover ≤ tol then some 0 else none⟩
  else
    ⟨0, 0, p.plafond_pea, none⟩

/-- One iteration of the monthly loop at month index `mois`
(source lines 56-68): capitalisation, then fees when positive, then the
monthly deposit when the cap leaves room beyond the tolerance. -/
def stepMonth (p : SimParams) (mois : ℕ) (s : SimState) : SimState :=
  let c1 := s.capital * (1 + r_m p)
  let c2 := if 0 < frais_mensuel p then c1 * (1 - frais_mensuel p) else c1
  if tol < s.leftover then
    let deposit := min p.versement_mensuel s.leftover
    let leftover := s.leftover - deposit
    ⟨c2 + deposit, s.net_investi + deposit, leftover,
      if leftover ≤ tol ∧ s.mois_plafond = none then some mois
      else s.mois_plafond⟩
  else
    ⟨c2, s.net_investi, s.leftover, s.mois_plafond⟩

/-- State after the first `m` iterations of the monthly loop. -/
def stateAt (p : SimParams) : ℕ → SimState
  | 0 => initState p
  | m + 1 => stepMonth p (m + 1) (stateAt p m)

/-- The history list: capital is appended once after the initial deposit
(line 52) and once per loop iteration (line 69). -/
def historique (p : SimParams) : List ℚ :=
  (List.range (nbIter p + 1)).map (fun m => (stateAt p m).capital)

/-- The state when the loop has finished. -/
def finalState (p : SimParams) : SimState := stateAt p (nbIter p)

/-- `interets_bruts = max(capital - net_investi, 0.0)` (source line 72). -/
def interets_bruts (p : SimParams) : ℚ :=
  max ((finalState p).capital - (finalState p).net_investi) 0

/-- `impots = (taux_impot_percent / 100.0) * interets_bruts` (line 73). -/
def impots (p : SimParams) : ℚ :=
  (p.taux_impot_percent / 100) * interets_bruts p

/-- The engine (source lines 17-81): final capital net of tax, total
invested, cap-reached month and the monthly history. -/
def simulate_pea (p : SimParams) : SimulationResult :=
  ⟨(finalState p).capital - impots p, (finalState p).net_investi,
    (finalState p).mois_plafond, historique p⟩

/-- One scenario entry of `calcul_scenarios` (source lines 119-127).  The
source formats the numeric fields into strings for display; the underlying
numbers are kept here, and `plafond_atteint` keeps the raw `mois_plafond`
that line 118 would hand to the formatting helper. -/
structure ScenarioData where
  taux : ℚ
  plafond_atteint : Option ℕ
  capital_final_brut : ℚ
  interets_bruts : ℚ
  impots : ℚ
  capital_final_net : ℚ
  historique : List ℚ
deriving DecidableEq, Repr

/-- The body of the `for taux in rates` loop (source lines 112-127):
one engine run plus the comparator's own recomputation of the gross
interest from the history tail `sim.historique[-1]`. -/
def scenarioFor (duree capI vers plaf frais infl impot : ℚ) (taux : ℚ) :
    ScenarioData :=
  let p : SimParams := ⟨duree, taux, capI, vers, plaf, frais, impot, infl⟩
  let sim := simulate_pea p
  let lastH := sim.historique.getLast!
  let ib := max (lastH - sim.net_investi) 0
  ⟨taux, sim.mois_plafond, lastH, ib, (impot / 100) * ib,
    sim.capital_final_brut, sim.historique⟩

/-- The comparator (source lines 94-159).  The first component models the
returned report string: the arity check returns the error sentinel with an
empty list (line 110); on success the report text assembled from the data is
presentation and is kept as `none`. -/
def calcul_scenarios (duree capI vers plaf : ℚ) (rates : List ℚ)
    (frais infl impot : ℚ) : Option String × List ScenarioData :=
  if rates.length ≠ 3 then
    (some "ERREUR : Veuillez renseigner exactement 3 taux.", [])
  else
    (none, rates.map (scenarioFor duree capI vers plaf frais infl impot))

/-! ### Helper lemmas about the embedding -/

lemma tol_pos : 0 < tol := by norm_num [tol]

lemma historique_length (p : SimParams) :
    (historique p).length = nbIter p + 1 := by
  simp [historique]

lemma historique_getElem (p : SimParams) (m : ℕ) (h : m ≤ nbIter p) :
    (historique p)[m]? = some ((stateAt p m).capital) := by
  simp [historique, List.getElem?_map, List.getElem?_range (Nat.lt_succ_of_le h)]

lemma historique_ne_nil (p : SimParams) : historique p ≠ [] := by
  intro h
  have := historique_length p
  rw [h] at this
  simp at this

lemma getLast!_append_singleton {α : Type} [Inhabited α] (l : List α) (a : α) :
    (l ++ [a]).getLast! = a := by
  induction l with
  | nil => rfl
  | cons x xs ih => simp [List.getLast!]

lemma historique_getLast (p : SimParams) :
    (historique p).getLast! = (finalState p).capital := by
  have h : historique p
      = (List.range (nbIter p)).map (fun m => (stateAt p m).capital)
        ++ [(stateAt p (nbIter p)).capital] := by
    simp [historique, List.range_succ]
  rw [h, getLast!_append_singleton]
  rfl

lemma stateAt_succ (p : SimParams) (n : ℕ) :
    stateAt p (n + 1) = stepMonth p (n + 1) (stateAt p n) := rfl

lemma stepMonth_capital (p : SimParams) (mois : ℕ) (s : SimState) :
    (stepMonth p mois s).capital =
      (if 0 < frais_mensuel p
        then s.capital * (1 + r_m p) * (1 - frais_mensuel p)
        else s.capital * (1 + r_m p))
      + (if tol < s.leftover then min p.versement_mensuel s.leftover else 0) := by
  simp only [stepMonth]
  split_ifs <;> simp

lemma stepMonth_net (p : SimParams) (mois : ℕ) (s : SimState) :
    (stepMonth p mois s).net_investi =
      s.net_investi
      + (if tol < s.leftover then min p.versement_mensuel s.leftover else 0) := by
  simp only [stepMonth]
  split_ifs <;> simp

lemma stepMonth_leftover (p : SimParams) (mois : ℕ) (s : SimState) :
    (stepMonth p mois s).leftover =
      s.leftover
      - (if tol < s.leftover then min p.versement_mensuel s.leftover else 0) := by
  simp only [stepMonth]
  split_ifs <;> simp

lemma stepMonth_mois_plafond (p : SimParams) (mois : ℕ) (s : SimState) (k : ℕ)
    (h : s.mois_plafond = some k) :
    (stepMonth p mois s).mois_plafond = some k := by
  simp only [stepMonth]
  split_ifs <;> simp_all

lemma stateAt_mois_plafond (p : SimParams) (k : ℕ)
    (h : (initState p).mois_plafond = some k) (m : ℕ) :
    (stateAt p m).mois_plafond = some k := by
  induction m with
  | zero => exact h
  | succ n ih => exact stepMonth_mois_plafond p (n + 1) _ k ih

lemma leftover_invariant (p : SimParams) (h : 0 ≤ p.plafond_pea) (m : ℕ) :
    0 ≤ (stateAt p m).leftover ∧
    (stateAt p m).net_investi + (stateAt p m).leftover = p.plafond_pea := by
  induction m with
  | zero =>
    show 0 ≤ (initState p).leftover ∧
      (initState p).net_investi + (initState p).leftover = p.plafond_pea
    unfold initState
    split_ifs with hp
    · have hmin := min_le_right p.capital_initial p.plafond_pea
      constructor
      · show 0 ≤ p.plafond_pea - min p.capital_initial p.plafond_pea
        linarith
      · show min p.capital_initial p.plafond_pea
          + (p.plafond_pea - min p.capital_initial p.plafond_pea) = p.plafond_pea
        ring
    · exact ⟨h, by show (0:ℚ) + p.plafond_pea = p.plafond_pea; ring⟩
  | succ n ih =>
    obtain ⟨ih1, ih2⟩ := ih
    rw [stateAt_succ, stepMonth_leftover, stepMonth_net]
    have hmin := min_le_right p.versement_mensuel (stateAt p n).leftover
    split_ifs with hl
    · exact ⟨by linarith, by linarith⟩
    · exact ⟨by linarith, by linarith⟩

lemma exhausted_state (p : SimParams) (h0 : 0 ≤ p.plafond_pea)
    (h1 : p.plafond_pea ≤ p.capital_initial) (m : ℕ) :
    (stateAt p m).net_investi = p.plafond_pea ∧
    (stateAt p m).leftover = 0 := by
  induction m with
  | zero =>
    show (initState p).net_investi = p.plafond_pea ∧ (initState p).leftover = 0
    unfold initState
    rcases lt_or_eq_of_le h0 with hp | hp
    · rw [if_pos hp]
      simp [min_eq_right h1]
    · rw [if_neg (by rw [← hp]; exact lt_irrefl 0)]
      exact ⟨hp, hp.symm⟩
  | succ n ih =>
    obtain ⟨ih1, ih2⟩ := ih
    constructor
    · rw [stateAt_succ, stepMonth_net, ih2, if_neg (by norm_num [tol]), add_zero]
      exact ih1
    · rw [stateAt_succ, stepMonth_leftover, ih2, if_neg (by norm_num [tol]),
        sub_zero]

/-! ### Claims -/

/-- Claim C2 counterexample: the claim quantifies over any numeric parameter
values, but with a negative contribution cap (here −1) the engine deposits
nothing, so `totalContributed = 0` exceeds `contributionCap + 1e-9`. -/
theorem cap_invariant_cex :
    ¬ ((simulate_pea ⟨0, 0, 0, 0, -1, 0, 17.2, 0⟩).net_investi
        ≤ (⟨0, 0, 0, 0, -1, 0, 17.2, 0⟩ : SimParams).plafond_pea + tol) := by
  show ¬ ((finalState _).net_investi ≤ _)
  norm_num [finalState, nbIter, nb_mois, pyInt, stateAt, initState, tol]

/-- Claim C2 (amended): for every input whose contribution cap is
nonnegative, the returned `totalContributed` is at most
`contributionCap + 1e-9`. -/
theorem cap_invariant (p : SimParams) (h : 0 ≤ p.plafond_pea) :
    (simulate_pea p).net_investi ≤ p.plafond_pea + tol := by
  obtain ⟨h1, h2⟩ := leftover_invariant p h (nbIter p)
  have ht := tol_pos
  show (finalState p).net_investi ≤ p.plafond_pea + tol
  unfold finalState
  linarith

theorem cap_invariant_witness :
    (0:ℚ) ≤ (⟨10, 6, 10000, 500, 150000, 0, 17.2, 0⟩ : SimParams).plafond_pea ∧
    (simulate_pea ⟨10, 6, 10000, 500, 150000, 0, 17.2, 0⟩).net_investi
      ≤ (⟨10, 6, 10000, 500, 150000, 0, 17.2, 0⟩ : SimParams).plafond_pea + tol :=
  ⟨by norm_num,
   cap_invariant ⟨10, 6, 10000, 500, 150000, 0, 17.2, 0⟩ (by norm_num)⟩

/-- Claim C3: for every parameter set with positive duration (the data-model
constraint), the history length is `floor(durationYears · 12) + 1`. -/
theorem history_length (p : SimParams) (h : 0 < p.duree_annees) :
    ((simulate_pea p).historique.length : ℤ) = ⌊p.duree_annees * 12⌋ + 1 := by
  have h12 : (0:ℚ) ≤ p.duree_annees * 12 := by positivity
  show ((historique p).length : ℤ) = _
  rw [historique_length]
  have hnb : nb_mois p = ⌊p.duree_annees * 12⌋ := by
    unfold nb_mois pyInt
    rw [if_pos h12]
  have hfl : 0 ≤ ⌊p.duree_annees * 12⌋ := Int.floor_nonneg.mpr h12
  unfold nbIter
  rw [hnb]
  omega

theorem history_length_witness :
    (0:ℚ) < (⟨1, 12, 1000, 0, 150000, 0, 17.2, 0⟩ : SimParams).duree_annees ∧
    ((simulate_pea ⟨1, 12, 1000, 0, 150000, 0, 17.2, 0⟩).historique.length : ℤ)
      = ⌊(⟨1, 12, 1000, 0, 150000, 0, 17.2, 0⟩ : SimParams).duree_annees * 12⌋
        + 1 :=
  ⟨by norm_num, history_length _ (by norm_num)⟩

/-- Claim C4 counterexample: with `initialCapital = 100 ≥ contributionCap = 0`
(both nonnegative per the data model), the source's `if leftover > 0` guard
skips the whole initial-deposit block, so `capReachedMonth` stays absent
instead of becoming 0. -/
theorem cap_detection_cex :
    (0:ℚ) ≤ (⟨0, 0, 100, 0, 0, 0, 17.2, 0⟩ : SimParams).plafond_pea ∧
    (⟨0, 0, 100, 0, 0, 0, 17.2, 0⟩ : SimParams).plafond_pea
      ≤ (⟨0, 0, 100, 0, 0, 0, 17.2, 0⟩ : SimParams).capital_initial ∧
    (simulate_pea ⟨0, 0, 100, 0, 0, 0, 17.2, 0⟩).mois_plafond ≠ some 0 := by
  refine ⟨by norm_num, by norm_num, ?_⟩
  have hres : (simulate_pea ⟨0, 0, 100, 0, 0, 0, 17.2, 0⟩).mois_plafond
      = none := by
    show (finalState _).mois_plafond = none
    norm_num [finalState, nbIter, nb_mois, pyInt, stateAt, initState]
  rw [hres]
  exact fun hcon => Option.noConfusion hcon

/-- Claim C4 (amended): if moreover the contribution cap is positive, an
initial capital at least the cap makes the engine report
`capReachedMonth = 0`. -/
theorem cap_detection (p : SimParams) (h0 : 0 < p.plafond_pea)
    (h1 : p.plafond_pea ≤ p.capital_initial) :
    (simulate_pea p).mois_plafond = some 0 := by
  have hinit : (initState p).mois_plafond = some 0 := by
    unfold initState
    rw [if_pos h0]
    show (if p.plafond_pea - min p.capital_initial p.plafond_pea ≤ tol
      then some 0 else none) = some 0
    rw [min_eq_right h1]
    rw [if_pos (by rw [sub_self]; exact tol_pos.le)]
  exact stateAt_mois_plafond p 0 hinit (nbIter p)

theorem cap_detection_witness :
    (0:ℚ) < (⟨1, 5, 200000, 100, 150000, 0, 17.2, 0⟩ : SimParams).plafond_pea ∧
    (⟨1, 5, 200000, 100, 150000, 0, 17.2, 0⟩ : SimParams).plafond_pea
      ≤ (⟨1, 5, 200000, 100, 150000, 0, 17.2, 0⟩ : SimParams).capital_initial ∧
    (simulate_pea ⟨1, 5, 200000, 100, 150000, 0, 17.2, 0⟩).mois_plafond
      = some 0 :=
  ⟨by norm_num, by norm_num,
   cap_detection ⟨1, 5, 200000, 100, 150000, 0, 17.2, 0⟩ (by norm_num)
     (by norm_num)⟩

/-- Claim C6 counterexample: the claim quantifies over every run, but with a
negative tax rate (−100 %) on a 3-month run with positive gains, the computed
tax is negative and the final capital after tax (1500) exceeds the last
history entry (800). -/
theorem tax_final_cex :
    ¬ ((simulate_pea ⟨1/4, 1200, 100, 0, 1000, 0, -100, 0⟩).capital_final_brut
        ≤ (simulate_pea ⟨1/4, 1200, 100, 0, 1000, 0, -100, 0⟩).historique.getLast!) := by
  rw [show (simulate_pea ⟨1/4, 1200, 100, 0, 1000, 0, -100, 0⟩).historique.getLast!
      = (finalState ⟨1/4, 1200, 100, 0, 1000, 0, -100, 0⟩).capital
    from historique_getLast _]
  show ¬ ((finalState _).capital - impots _ ≤ _)
  norm_num [finalState, impots, interets_bruts, nbIter, nb_mois, pyInt, stateAt,
    initState, stepMonth, r_m, frais_mensuel, tol]

/-- Claim C6 (amended): for every run whose tax rate is nonnegative, the final
capital after tax is at most the last history entry. -/
theorem tax_final_le_last (p : SimParams) (h : 0 ≤ p.taux_impot_percent) :
    (simulate_pea p).capital_final_brut
      ≤ (simulate_pea p).historique.getLast! := by
  rw [show (simulate_pea p).historique.getLast! = (finalState p).capital
    from historique_getLast p]
  show (finalState p).capital - impots p ≤ (finalState p).capital
  have h1 : 0 ≤ interets_bruts p := le_max_right _ _
  have h2 : 0 ≤ impots p :=
    mul_nonneg (div_nonneg h (by norm_num)) h1
  linarith

theorem tax_final_le_last_witness :
    (0:ℚ) ≤ (⟨0, 0, 100, 0, 1000, 0, 17.2, 0⟩ : SimParams).taux_impot_percent ∧
    (simulate_pea ⟨0, 0, 100, 0, 1000, 0, 17.2, 0⟩).capital_final_brut
      ≤ (simulate_pea ⟨0, 0, 100, 0, 1000, 0, 17.2, 0⟩).historique.getLast! :=
  ⟨by norm_num, tax_final_le_last ⟨0, 0, 100, 0, 1000, 0, 17.2, 0⟩ (by norm_num)⟩

/-- Claim C7: when a nonnegative cap is already exhausted by the initial
deposit (cap ≤ initial capital), every subsequent monthly step leaves
`net_investi` at the cap and `leftover` at 0 — no deposit is applied whatever
the monthly contribution is — while the capital still moves by growth and,
when positive, the fee. -/
theorem cap_exhausted_frame (p : SimParams) (m : ℕ) (h0 : 0 ≤ p.plafond_pea)
    (h1 : p.plafond_pea ≤ p.capital_initial) :
    (stateAt p (m + 1)).net_investi = p.plafond_pea ∧
    (stateAt p (m + 1)).leftover = 0 ∧
    (stateAt p (m + 1)).capital =
      (if 0 < frais_mensuel p
        then (stateAt p m).capital * (1 + r_m p) * (1 - frais_mensuel p)
        else (stateAt p m).capital * (1 + r_m p)) := by
  obtain ⟨h2, h3⟩ := exhausted_state p h0 h1 m
  refine ⟨(exhausted_state p h0 h1 (m + 1)).1,
    (exhausted_state p h0 h1 (m + 1)).2, ?_⟩
  rw [stateAt_succ, stepMonth_capital, h3,
    if_neg (show ¬ tol < (0:ℚ) by norm_num [tol]), add_zero]

theorem cap_exhausted_frame_witness :
    (0:ℚ) ≤ (⟨1, 5, 200000, 500, 150000, 2, 17.2, 0⟩ : SimParams).plafond_pea ∧
    (⟨1, 5, 200000, 500, 150000, 2, 17.2, 0⟩ : SimParams).plafond_pea
      ≤ (⟨1, 5, 200000, 500, 150000, 2, 17.2, 0⟩ : SimParams).capital_initial ∧
    ((stateAt ⟨1, 5, 200000, 500, 150000, 2, 17.2, 0⟩ (0 + 1)).net_investi
        = (⟨1, 5, 200000, 500, 150000, 2, 17.2, 0⟩ : SimParams).plafond_pea ∧
      (stateAt ⟨1, 5, 200000, 500, 150000, 2, 17.2, 0⟩ (0 + 1)).leftover = 0 ∧
      (stateAt ⟨1, 5, 200000, 500, 150000, 2, 17.2, 0⟩ (0 + 1)).capital =
        (if 0 < frais_mensuel ⟨1, 5, 200000, 500, 150000, 2, 17.2, 0⟩
          then (stateAt ⟨1, 5, 200000, 500, 150000, 2, 17.2, 0⟩ 0).capital
              * (1 + r_m ⟨1, 5, 200000, 500, 150000, 2, 17.2, 0⟩)
              * (1 - frais_mensuel ⟨1, 5, 200000, 500, 150000, 2, 17.2, 0⟩)
          else (stateAt ⟨1, 5, 200000, 500, 150000, 2, 17.2, 0⟩ 0).capital
              * (1 + r_m ⟨1, 5, 200000, 500, 150000, 2, 17.2, 0⟩))) :=
  ⟨by norm_num, by norm_num,
   cap_exhausted_frame ⟨1, 5, 200000, 500, 150000, 2, 17.2, 0⟩ 0 (by norm_num)
     (by norm_num)⟩

/-- Claim C9: a nonpositive duration gives month count 0: the history is the
single post-initial-deposit entry and the final capital after tax is computed
from that entry alone, without error. -/
theorem nonpositive_duration (p : SimParams) (h : p.duree_annees ≤ 0) :
    (simulate_pea p).historique = [(initState p).capital] ∧
    (simulate_pea p).capital_final_brut
      = (initState p).capital
        - (p.taux_impot_percent / 100)
          * max ((initState p).capital - (initState p).net_investi) 0 := by
  have h12 : p.duree_annees * 12 ≤ 0 := by nlinarith
  have hn : nbIter p = 0 := by
    unfold nbIter nb_mois pyInt
    split_ifs with h0
    · have he : p.duree_annees * 12 = 0 := le_antisymm h12 h0
      rw [he]
      simp
    · have hc : ⌈p.duree_annees * 12⌉ ≤ 0 := by
        rw [Int.ceil_le]
        exact_mod_cast h12
      omega
  constructor
  · show historique p = _
    rw [historique, hn]
    simp [stateAt, List.range_succ]
  · show (finalState p).capital - impots p = _
    rw [impots, interets_bruts]
    unfold finalState
    rw [hn]
    rfl

theorem nonpositive_duration_witness :
    (⟨0, 8, 5000, 100, 150000, 0, 17.2, 0⟩ : SimParams).duree_annees ≤ 0 ∧
    ((simulate_pea ⟨0, 8, 5000, 100, 150000, 0, 17.2, 0⟩).historique
        = [(initState ⟨0, 8, 5000, 100, 150000, 0, 17.2, 0⟩).capital] ∧
      (simulate_pea ⟨0, 8, 5000, 100, 150000, 0, 17.2, 0⟩).capital_final_brut
        = (initState ⟨0, 8, 5000, 100, 150000, 0, 17.2, 0⟩).capital
          - ((⟨0, 8, 5000, 100, 150000, 0, 17.2, 0⟩ : SimParams).taux_impot_percent
              / 100)
            * max ((initState ⟨0, 8, 5000, 100, 150000, 0, 17.2, 0⟩).capital
                - (initState ⟨0, 8, 5000, 100, 150000, 0, 17.2, 0⟩).net_investi)
              0) :=
  ⟨by norm_num,
   nonpositive_duration ⟨0, 8, 5000, 100, 150000, 0, 17.2, 0⟩ (by norm_num)⟩

/-- Claim C1: for every parameter set and every month index `m` from 1 to the
month count, the state of month `m` — whose capital is appended as
`history[m]`, the capital of month `m-1` being `history[m-1]` — is obtained
from the state of month `m-1` by: growth by `1 + r_m`; then the fee factor
`1 - f_m`, only when the monthly fee fraction `f_m` is positive; then, only
when `leftover > 1e-9`, a deposit of `min(versement, leftover)` added to
capital and to `net_investi` and subtracted from `leftover`, with
`mois_plafond` set to `m` when the room thereby falls to ≤ 1e-9 and it was
still absent. -/
theorem monthly_step (p : SimParams) (m : ℕ) (hm1 : 1 ≤ m)
    (hm2 : m ≤ nbIter p) :
    (historique p)[m - 1]? = some ((stateAt p (m - 1)).capital) ∧
    (historique p)[m]? = some ((stateAt p m).capital) ∧
    stateAt p m =
      (let s := stateAt p (m - 1)
       let g := s.capital * (1 + r_m p)
       let c := if 0 < frais_mensuel p then g * (1 - frais_mensuel p) else g
       if tol < s.leftover then
         let d := min p.versement_mensuel s.leftover
         ⟨c + d, s.net_investi + d, s.leftover - d,
           if s.leftover - d ≤ tol ∧ s.mois_plafond = none then some m
           else s.mois_plafond⟩
       else ⟨c, s.net_investi, s.leftover, s.mois_plafond⟩) := by
  obtain ⟨n, rfl⟩ : ∃ n, m = n + 1 := ⟨m - 1, (Nat.succ_pred_eq_of_pos hm1).symm⟩
  simp only [Nat.add_sub_cancel]
  exact ⟨historique_getElem p n (le_trans (Nat.le_succ n) hm2),
    historique_getElem p (n + 1) hm2, rfl⟩

theorem monthly_step_witness :
    1 ≤ 1 ∧ 1 ≤ nbIter ⟨1, 12, 1000, 100, 150000, 0, 17.2, 0⟩ ∧
    ((historique ⟨1, 12, 1000, 100, 150000, 0, 17.2, 0⟩)[1 - 1]?
        = some ((stateAt ⟨1, 12, 1000, 100, 150000, 0, 17.2, 0⟩ (1 - 1)).capital) ∧
      (historique ⟨1, 12, 1000, 100, 150000, 0, 17.2, 0⟩)[1]?
        = some ((stateAt ⟨1, 12, 1000, 100, 150000, 0, 17.2, 0⟩ 1).capital) ∧
      stateAt ⟨1, 12, 1000, 100, 150000, 0, 17.2, 0⟩ 1 =
        (let s := stateAt ⟨1, 12, 1000, 100, 150000, 0, 17.2, 0⟩ (1 - 1)
         let g := s.capital * (1 + r_m ⟨1, 12, 1000, 100, 150000, 0, 17.2, 0⟩)
         let c := if 0 < frais_mensuel ⟨1, 12, 1000, 100, 150000, 0, 17.2, 0⟩
            then g * (1 - frais_mensuel ⟨1, 12, 1000, 100, 150000, 0, 17.2, 0⟩)
            else g
         if tol < s.leftover then
           let d := min
             (⟨1, 12, 1000, 100, 150000, 0, 17.2, 0⟩ : SimParams).versement_mensuel
             s.leftover
           ⟨c + d, s.net_investi + d, s.leftover - d,
             if s.leftover - d ≤ tol ∧ s.mois_plafond = none then some 1
             else s.mois_plafond⟩
         else ⟨c, s.net_investi, s.leftover, s.mois_plafond⟩)) :=
  ⟨le_refl 1, by norm_num [nbIter, nb_mois, pyInt],
   monthly_step ⟨1, 12, 1000, 100, 150000, 0, 17.2, 0⟩ 1 (le_refl 1)
     (by norm_num [nbIter, nb_mois, pyInt])⟩

/-- Claim C5: for every scenario built by the comparator, the gross interest
it recomputes from the history tail equals the engine's internal gross gains,
and the history tail minus the comparator's tax equals the engine's final
capital after tax. -/
theorem comparator_agree (duree capI vers plaf frais infl impot : ℚ)
    (rates : List ℚ) (s : ScenarioData)
    (hs : s ∈ (calcul_scenarios duree capI vers plaf rates frais infl impot).2) :
    s.interets_bruts
      = interets_bruts ⟨duree, s.taux, capI, vers, plaf, frais, impot, infl⟩ ∧
    s.capital_final_brut - s.impots
      = (simulate_pea
          ⟨duree, s.taux, capI, vers, plaf, frais, impot, infl⟩).capital_final_brut := by
  unfold calcul_scenarios at hs
  by_cases hr : rates.length ≠ 3
  · rw [if_pos hr] at hs
    exact absurd hs (List.not_mem_nil s)
  · rw [if_neg hr] at hs
    obtain ⟨taux, -, rfl⟩ := List.mem_map.mp hs
    have hl : (simulate_pea
          ⟨duree, taux, capI, vers, plaf, frais, impot, infl⟩).historique.getLast!
        = (finalState ⟨duree, taux, capI, vers, plaf, frais, impot, infl⟩).capital :=
      historique_getLast _
    simp only [scenarioFor]
    rw [hl]
    exact ⟨rfl, rfl⟩

theorem comparator_agree_witness :
    (scenarioFor 0 1000 100 150000 0 0 17.2 6
        ∈ (calcul_scenarios 0 1000 100 150000 [6, 8, 10] 0 0 17.2).2) ∧
    ((scenarioFor 0 1000 100 150000 0 0 17.2 6).interets_bruts
        = interets_bruts
            ⟨0, (scenarioFor 0 1000 100 150000 0 0 17.2 6).taux, 1000, 100,
              150000, 0, 17.2, 0⟩ ∧
      (scenarioFor 0 1000 100 150000 0 0 17.2 6).capital_final_brut
          - (scenarioFor 0 1000 100 150000 0 0 17.2 6).impots
        = (simulate_pea
            ⟨0, (scenarioFor 0 1000 100 150000 0 0 17.2 6).taux, 1000, 100,
              150000, 0, 17.2, 0⟩).capital_final_brut) := by
  have hmem : scenarioFor 0 1000 100 150000 0 0 17.2 6
      ∈ (calcul_scenarios 0 1000 100 150000 [6, 8, 10] 0 0 17.2).2 :=
    List.mem_map.mpr ⟨6, by norm_num, rfl⟩
  exact ⟨hmem, comparator_agree 0 1000 100 150000 0 0 17.2 [6, 8, 10] _ hmem⟩

/-- Claim C8: with other than 3 rates the comparator returns the
configuration-error sentinel together with an empty scenario list, without
raising; with exactly 3 rates it returns no error and exactly 3 scenarios
carrying the rates in the caller-supplied order. -/
theorem comparator_arity (duree capI vers plaf frais infl impot : ℚ)
    (rates : List ℚ) :
    (rates.length ≠ 3 →
      calcul_scenarios duree capI vers plaf rates frais infl impot
        = (some "ERREUR : Veuillez renseigner exactement 3 taux.", [])) ∧
    (rates.length = 3 →
      (calcul_scenarios duree capI vers plaf rates frais infl impot).1 = none ∧
      ((calcul_scenarios duree capI vers plaf rates frais infl impot).2).length
        = 3 ∧
      ((calcul_scenarios duree capI vers plaf rates frais infl impot).2).map
        ScenarioData.taux = rates) := by
  constructor
  · intro hne
    simp only [calcul_scenarios, if_pos hne]
  · intro h3
    have hne : ¬ rates.length ≠ 3 := fun hcon => hcon h3
    refine ⟨?_, ?_, ?_⟩
    · simp only [calcul_scenarios, if_neg hne]
    · simp only [calcul_scenarios, if_neg hne]
      rw [List.length_map, h3]
    · simp only [calcul_scenarios, if_neg hne]
      rw [List.map_map]
      have hcomp : ScenarioData.taux
          ∘ scenarioFor duree capI vers plaf frais infl impot = id := rfl
      rw [hcomp, List.map_id]

theorem comparator_arity_witness :
    (([6, 8] : List ℚ).length ≠ 3 →
      calcul_scenarios 10 10000 500 150000 [6, 8] 0 0 17.2
        = (some "ERREUR : Veuillez renseigner exactement 3 taux.", [])) ∧
    (([6, 8, 10] : List ℚ).length = 3 →
      (calcul_scenarios 10 10000 500 150000 [6, 8, 10] 0 0 17.2).1 = none ∧
      ((calcul_scenarios 10 10000 500 150000 [6, 8, 10] 0 0 17.2).2).length = 3 ∧
      ((calcul_scenarios 10 10000 500 150000 [6, 8, 10] 0 0 17.2).2).map
        ScenarioData.taux = [6, 8, 10]) :=
  ⟨(comparator_arity 10 10000 500 150000 0 0 17.2 [6, 8]).1,
   (comparator_arity 10 10000 500 150000 0 0 17.2 [6, 8, 10]).2⟩

/-- Claim C10: `history[0]` is appended unconditionally before the monthly
loop, so the engine's history is never empty, and every scenario the
comparator builds carries a nonempty history — its history-tail accesses are
always in bounds. -/
theorem history_never_empty (p : SimParams)
    (duree capI vers plaf frais infl impot : ℚ) (rates : List ℚ)
    (s : ScenarioData)
    (hs : s ∈ (calcul_scenarios duree capI vers plaf rates frais infl impot).2) :
    (simulate_pea p).historique[0]? = some ((initState p).capital) ∧
    (simulate_pea p).historique ≠ [] ∧ s.historique ≠ [] := by
  refine ⟨historique_getElem p 0 (Nat.zero_le _), historique_ne_nil p, ?_⟩
  unfold calcul_scenarios at hs
  by_cases hr : rates.length ≠ 3
  · rw [if_pos hr] at hs
    exact absurd hs (List.not_mem_nil s)
  · rw [if_neg hr] at hs
    obtain ⟨taux, -, rfl⟩ := List.mem_map.mp hs
    exact historique_ne_nil ⟨duree, taux, capI, vers, plaf, frais, impot, infl⟩

theorem history_never_empty_witness :
    (scenarioFor 0 1000 100 150000 0 0 17.2 6
        ∈ (calcul_scenarios 0 1000 100 150000 [6, 8, 10] 0 0 17.2).2) ∧
    ((simulate_pea ⟨5, 6, 10000, 500, 150000, 0, 17.2, 0⟩).historique[0]?
        = some ((initState ⟨5, 6, 10000, 500, 150000, 0, 17.2, 0⟩).capital) ∧
      (simulate_pea ⟨5, 6, 10000, 500, 150000, 0, 17.2, 0⟩).historique ≠ [] ∧
      (scenarioFor 0 1000 100 150000 0 0 17.2 6).historique ≠ []) := by
  have hmem : scenarioFor 0 1000 100 150000 0 0 17.2 6
      ∈ (calcul_scenarios 0 1000 100 150000 [6, 8, 10] 0 0 17.2).2 :=
    List.mem_map.mpr ⟨6, by norm_num, rfl⟩
  exact ⟨hmem,
    history_never_empty ⟨5, 6, 10000, 500, 150000, 0, 17.2, 0⟩ 0 1000 100 150000
      0 0 17.2 [6, 8, 10] _ hmem⟩

end PEA
